import Mathlib

/-!
# Verification of the DSPy calibration and academic-benchmark core

Shallow embedding of `src/aiq/reasoning/dspy_parameter_calibration.py` and
`src/aiq/eval/dspy_academic_benchmarks.py`.  Machine floats are modelled by
`ℚ` (exact arithmetic); Python exceptions by `Except PyError`; NumPy's
`np.clip(v, lo, hi)` by `min (max v lo) hi`.
-/

/-- Python exceptions that the embedded code can raise. -/
inductive PyError where
  | valueError (msg : String)
  | zeroDivisionError
  | attributeError (name : String)
deriving DecidableEq, Repr

/-- `np.clip(value, lo, hi)`: NumPy applies the lower bound first, then the
upper bound. -/
def npClip (value lo hi : ℚ) : ℚ := min (max value lo) hi

/-- Mean of a list, `sum / len`; on the empty list the ℚ convention
`x / 0 = 0` stands in for NumPy's NaN (no claim inspects that case). -/
def listMean (l : List ℚ) : ℚ := l.sum / (l.length : ℚ)

/-- Embedding of the dataclass `DSPyParameterBounds` with its declared
defaults (integer-valued bounds are carried in ℚ as well, since Python
compares them numerically). -/
structure DSPyParameterBounds where
  temperature_min : ℚ := 1/10
  temperature_max : ℚ := 2
  temperature_default : ℚ := 7/10
  max_tokens_min : ℚ := 100
  max_tokens_max : ℚ := 8192
  max_tokens_default : ℚ := 2000
  learning_rate_min : ℚ := 1/1000000
  learning_rate_max : ℚ := 1/10
  learning_rate_default : ℚ := 1/10000
  max_rounds_min : ℚ := 1
  max_rounds_max : ℚ := 10
  max_rounds_default : ℚ := 3
  max_examples_min : ℚ := 1
  max_examples_max : ℚ := 100
  max_examples_default : ℚ := 10
  reasoning_weight_min : ℚ := 0
  reasoning_weight_max : ℚ := 1
  reasoning_weight_default : ℚ := 3/10
  tolerance_min : ℚ := 1/1000000
  tolerance_max : ℚ := 1/100
  tolerance_default : ℚ := 1/10000

/-- The default bounds table, `DSPyParameterBounds()`. -/
def defaultParameterBounds : DSPyParameterBounds := {}

/-- `DSPyParameterBounds.validate_parameter`: the if/elif chain over the
seven parameter names; an unknown name logs a warning and returns `False`. -/
def DSPyParameterBounds.validate_parameter (b : DSPyParameterBounds)
    (param_name : String) (value : ℚ) : Bool :=
  if param_name = "temperature" then
    decide (b.temperature_min ≤ value ∧ value ≤ b.temperature_max)
  else if param_name = "max_tokens" then
    decide (b.max_tokens_min ≤ value ∧ value ≤ b.max_tokens_max)
  else if param_name = "learning_rate" then
    decide (b.learning_rate_min ≤ value ∧ value ≤ b.learning_rate_max)
  else if param_name = "max_rounds" then
    decide (b.max_rounds_min ≤ value ∧ value ≤ b.max_rounds_max)
  else if param_name = "max_examples" then
    decide (b.max_examples_min ≤ value ∧ value ≤ b.max_examples_max)
  else if param_name = "reasoning_weight" then
    decide (b.reasoning_weight_min ≤ value ∧ value ≤ b.reasoning_weight_max)
  else if param_name = "tolerance" then
    decide (b.tolerance_min ≤ value ∧ value ≤ b.tolerance_max)
  else
    false

/-- `DSPyParameterBounds.clip_parameter`: `np.clip` against the matching
bounds; an unknown name is returned unchanged. -/
def DSPyParameterBounds.clip_parameter (b : DSPyParameterBounds)
    (param_name : String) (value : ℚ) : ℚ :=
  if param_name = "temperature" then
    npClip value b.temperature_min b.temperature_max
  else if param_name = "max_tokens" then
    npClip value b.max_tokens_min b.max_tokens_max
  else if param_name = "learning_rate" then
    npClip value b.learning_rate_min b.learning_rate_max
  else if param_name = "max_rounds" then
    npClip value b.max_rounds_min b.max_rounds_max
  else if param_name = "max_examples" then
    npClip value b.max_examples_min b.max_examples_max
  else if param_name = "reasoning_weight" then
    npClip value b.reasoning_weight_min b.reasoning_weight_max
  else if param_name = "tolerance" then
    npClip value b.tolerance_min b.tolerance_max
  else
    value

/-- The seven parameter names validated by the calibration config. -/
def calibrationParamNames : List String :=
  ["temperature", "max_tokens", "learning_rate", "max_rounds",
   "max_examples", "reasoning_weight", "tolerance"]

/-- Embedding of the dataclass `DSPyCalibrationConfig` with its declared
defaults. -/
structure DSPyCalibrationConfig where
  temperature : ℚ := 7/10
  max_tokens : ℚ := 2000
  learning_rate : ℚ := 1/10000
  max_rounds : ℚ := 3
  max_examples : ℚ := 10
  reasoning_weight : ℚ := 3/10
  tolerance : ℚ := 1/10000
  enable_temperature_scaling : Bool := true
  enable_confidence_calibration : Bool := true
  calibration_method : String := "platt"
  validate_parameters : Bool := true
  clip_invalid_parameters : Bool := true

/-- `getattr(self, param_name)` restricted to the seven numeric fields. -/
def DSPyCalibrationConfig.getParam (c : DSPyCalibrationConfig) (name : String) : ℚ :=
  if name = "temperature" then c.temperature
  else if name = "max_tokens" then c.max_tokens
  else if name = "learning_rate" then c.learning_rate
  else if name = "max_rounds" then c.max_rounds
  else if name = "max_examples" then c.max_examples
  else if name = "reasoning_weight" then c.reasoning_weight
  else if name = "tolerance" then c.tolerance
  else 0

/-- `setattr(self, param_name, v)` restricted to the seven numeric fields. -/
def DSPyCalibrationConfig.setParam (c : DSPyCalibrationConfig) (name : String)
    (v : ℚ) : DSPyCalibrationConfig :=
  if name = "temperature" then { c with temperature := v }
  else if name = "max_tokens" then { c with max_tokens := v }
  else if name = "learning_rate" then { c with learning_rate := v }
  else if name = "max_rounds" then { c with max_rounds := v }
  else if name = "max_examples" then { c with max_examples := v }
  else if name = "reasoning_weight" then { c with reasoning_weight := v }
  else if name = "tolerance" then { c with tolerance := v }
  else c

/-- One iteration of the `__post_init__` validation loop: if the value fails
`validate_parameter`, either clip it (when `clip_invalid_parameters`) or
raise `ValueError(f"Invalid \x7bparam_name\x7d: \x7bvalue\x7d")`. -/
def validateStep (bounds : DSPyParameterBounds) (c : DSPyCalibrationConfig)
    (param_name : String) : Except PyError DSPyCalibrationConfig :=
  let value := c.getParam param_name
  if bounds.validate_parameter param_name value = false then
    if c.clip_invalid_parameters = true then
      .ok (c.setParam param_name (bounds.clip_parameter param_name value))
    else
      .error (.valueError ("Invalid " ++ param_name ++ ": " ++ toString value))
  else
    .ok c

/-- `DSPyCalibrationConfig.__post_init__`: early return when
`validate_parameters` is off, otherwise the loop over the literal
seven-name list, unrolled. -/
def DSPyCalibrationConfig.post_init (c : DSPyCalibrationConfig) :
    Except PyError DSPyCalibrationConfig :=
  if c.validate_parameters = false then .ok c
  else do
    let c ← validateStep defaultParameterBounds c "temperature"
    let c ← validateStep defaultParameterBounds c "max_tokens"
    let c ← validateStep defaultParameterBounds c "learning_rate"
    let c ← validateStep defaultParameterBounds c "max_rounds"
    let c ← validateStep defaultParameterBounds c "max_examples"
    let c ← validateStep defaultParameterBounds c "reasoning_weight"
    let c ← validateStep defaultParameterBounds c "tolerance"
    pure c

/-- The config with each of the seven numeric fields clipped to the default
bounds table. -/
def clipConfig (c : DSPyCalibrationConfig) : DSPyCalibrationConfig :=
  { c with
    temperature := npClip c.temperature (1/10) 2
    max_tokens := npClip c.max_tokens 100 8192
    learning_rate := npClip c.learning_rate (1/1000000) (1/10)
    max_rounds := npClip c.max_rounds 1 10
    max_examples := npClip c.max_examples 1 100
    reasoning_weight := npClip c.reasoning_weight 0 1
    tolerance := npClip c.tolerance (1/1000000) (1/100) }

/-- Embedding of `DSPyParameterOptimizer` (only the bounds field matters for
`adaptive_learning_rate`); `bounds or DSPyParameterBounds()` defaults to the
default table. -/
structure DSPyParameterOptimizer where
  bounds : DSPyParameterBounds := {}

/-- `DSPyParameterOptimizer.adaptive_learning_rate`: with fewer than 3 loss
values return `current_lr` unchanged; otherwise look at the last three
losses, halve the rate if they are strictly increasing, multiply by 1.1 if
strictly decreasing, keep it otherwise, and clip the adjusted rate to the
learning-rate bounds. -/
def DSPyParameterOptimizer.adaptive_learning_rate (o : DSPyParameterOptimizer)
    (loss_history : List ℚ) (current_lr : ℚ) : ℚ :=
  if loss_history.length < 3 then current_lr
  else
    match loss_history.drop (loss_history.length - 3) with
    | [l3, l2, l1] =>
      let new_lr :=
        if l1 > l2 ∧ l2 > l3 then current_lr * (1/2)
        else if l1 < l2 ∧ l2 < l3 then current_lr * (11/10)
        else current_lr
      o.bounds.clip_parameter "learning_rate" new_lr
    | _ => current_lr

/-- Embedding of `TemperatureScaling.__init__`: a single scalar parameter,
default initial value 1.0. -/
structure TemperatureScaling where
  temperature : ℚ := 1
deriving DecidableEq, Repr

/-- The fitted model stored in `DSPyConfidenceCalibrator.calibrator`.  The
sklearn regressions are external collaborators; a fitted Platt/isotonic model
is represented by the training data that determines it, while temperature
scaling carries its `TemperatureScaling` state. -/
inductive FittedCalibrator where
  | platt (predictions targets : List ℚ)
  | isotonic (predictions targets : List ℚ)
  | temperatureScaling (ts : TemperatureScaling)
deriving DecidableEq, Repr

/-- Embedding of the `DSPyConfidenceCalibrator` object state. -/
structure DSPyConfidenceCalibrator where
  method : String
  calibrator : Option FittedCalibrator
  is_fitted : Bool
deriving DecidableEq, Repr

/-- `DSPyConfidenceCalibrator.__init__(method)`: no calibrator, not fitted. -/
def mkDSPyConfidenceCalibrator (method : String) : DSPyConfidenceCalibrator :=
  ⟨method, none, false⟩

/-- `DSPyConfidenceCalibrator.fit`: install the calibrator for the known
methods and set `is_fitted`; unknown methods raise `ValueError` before
`is_fitted` is set.  The `"temperature"` branch constructs
`TemperatureScaling()` (initial temperature 1) and never calls its
`calibrate` optimizer, so it does not read `predictions`/`targets`. -/
def DSPyConfidenceCalibrator.fit (c : DSPyConfidenceCalibrator)
    (predictions targets : List ℚ) : Except PyError DSPyConfidenceCalibrator :=
  if c.method = "platt" then
    .ok { c with calibrator := some (.platt predictions targets), is_fitted := true }
  else if c.method = "isotonic" then
    .ok { c with calibrator := some (.isotonic predictions targets), is_fitted := true }
  else if c.method = "temperature" then
    .ok { c with calibrator := some (.temperatureScaling {}), is_fitted := true }
  else
    .error (.valueError ("Unknown calibration method: " ++ c.method))

/-- `DSPyConfidenceCalibrator.predict_proba`: raises
`ValueError("Calibrator not fitted. Call fit() first.")` when not fitted,
otherwise applies the fitted model; the numeric effect of the external
sklearn/torch model is the opaque collaborator `applyModel`. -/
def DSPyConfidenceCalibrator.predict_proba (c : DSPyConfidenceCalibrator)
    (applyModel : FittedCalibrator → List ℚ → List ℚ)
    (predictions : List ℚ) : Except PyError (List ℚ) :=
  if c.is_fitted = false then
    .error (.valueError "Calibrator not fitted. Call fit() first.")
  else
    match c.calibrator with
    | some m => .ok (applyModel m predictions)
    | none => .ok predictions

/-- The `n_bins + 1` boundaries `np.linspace(0, 1, n_bins + 1)` paired as
`(bin_lowers[i], bin_uppers[i]) = (i / n_bins, (i + 1) / n_bins)`. -/
def binPairs (n_bins : ℕ) : List (ℚ × ℚ) :=
  (List.range n_bins).map
    (fun i => ((i : ℚ) / (n_bins : ℚ), ((i : ℚ) + 1) / (n_bins : ℚ)))

/-- Bin membership `(predictions > bin_lower) & (predictions <= bin_upper)`:
strict at the lower edge, inclusive at the upper edge. -/
def inBin (lo hi p : ℚ) : Bool := decide (lo < p) && decide (p ≤ hi)

/-- The (prediction, target) pairs whose prediction falls in the bin. -/
def binSel (pts : List (ℚ × ℚ)) (b : ℚ × ℚ) : List (ℚ × ℚ) :=
  pts.filter (fun pt => inBin b.1 b.2 pt.1)

/-- `prop_in_bin = in_bin.mean()`: the fraction of the population whose
prediction falls in the bin. -/
def binProp (pts : List (ℚ × ℚ)) (b : ℚ × ℚ) : ℚ :=
  ((binSel pts b).length : ℚ) / (pts.length : ℚ)

/-- The sum over all bins of `prop_in_bin`. -/
def binPropSum (predictions targets : List ℚ) (n_bins : ℕ) : ℚ :=
  ((binPairs n_bins).map (binProp (predictions.zip targets))).sum

/-- The metrics dictionary returned by `evaluate_calibration`. -/
structure CalibrationMetrics where
  ece : ℚ
  mce : ℚ
  brier_score : ℚ
  reliability : ℚ
  resolution : ℚ
deriving DecidableEq, Repr

/-- The body of `evaluate_calibration` on equal-length prediction/target
arrays: ECE and MCE accumulated over the bins with a nonempty selection,
Brier score, reliability and resolution (`np.var`). -/
def evaluateCalibrationMetrics (predictions targets : List ℚ)
    (n_bins : ℕ) : CalibrationMetrics :=
  let pts := predictions.zip targets
  let bins := binPairs n_bins
  { ece := (bins.map (fun b =>
      if (binSel pts b).length ≠ 0 then
        binProp pts b *
          |listMean ((binSel pts b).map Prod.fst) -
            listMean ((binSel pts b).map Prod.snd)|
      else 0)).sum
    mce := (bins.map (fun b =>
      if (binSel pts b).length ≠ 0 then
        |listMean ((binSel pts b).map Prod.fst) -
          listMean ((binSel pts b).map Prod.snd)|
      else 0)).foldl max 0
    brier_score := listMean (pts.map (fun pt => (pt.1 - pt.2) ^ 2))
    reliability := (bins.map (fun b =>
      if (binSel pts b).length ≠ 0 then
        ((binSel pts b).length : ℚ) *
          (listMean ((binSel pts b).map Prod.fst) -
            listMean ((binSel pts b).map Prod.snd)) ^ 2
      else 0)).sum / (predictions.length : ℚ)
    resolution := listMean (targets.map (fun t => (t - listMean targets) ^ 2)) }

/-- `DSPyConfidenceCalibrator.evaluate_calibration`: the method body reads
nothing from `self` — in particular it performs no `is_fitted` check — and
unconditionally returns the metrics dictionary. -/
def DSPyConfidenceCalibrator.evaluate_calibration (c : DSPyConfidenceCalibrator)
    (predictions targets : List ℚ) (n_bins : ℕ) : Except PyError CalibrationMetrics :=
  .ok (evaluateCalibrationMetrics predictions targets n_bins)

/-- Embedding of the dataclass `BenchmarkResult`; `baseline_comparison` is
an insertion-ordered association list, like a Python dict. -/
structure BenchmarkResult where
  benchmark_name : String
  accuracy : ℚ
  f1_score : ℚ
  precision : ℚ
  «recall» : ℚ
  confidence_interval : ℚ × ℚ
  p_value : ℚ
  sample_size : ℕ
  baseline_comparison : List (String × ℚ)
  statistical_significance : Bool
  effect_size : ℚ

/-- One baseline line of the report:
`improvement = ((result.accuracy - baseline_score) / baseline_score) * 100`.
A Python float division by `0.0` raises `ZeroDivisionError`; numeric
formatting is abstracted by `toString`. -/
def baselineComparisonLine (accuracy : ℚ) (entry : String × ℚ) :
    Except PyError String :=
  if entry.2 = 0 then .error .zeroDivisionError
  else
    .ok ("- vs " ++ entry.1 ++ ": " ++
      toString ((accuracy - entry.2) / entry.2 * 100) ++ "% improvement\n")

/-- The fixed header of `generate_academic_report`. -/
def reportHeader : String :=
  "\n# DSPy Academic Evaluation Report\n\n## Executive Summary\n\nThis report presents a comprehensive evaluation of the DSPy reasoning system following rigorous academic standards. All results include statistical significance testing, confidence intervals, and effect size calculations.\n\n## Benchmark Results\n\n"

/-- The fixed methodology/conclusion footer of `generate_academic_report`. -/
def reportFooter : String :=
  "\n## Statistical Methodology\n\n1. **Confidence Intervals:** Bootstrap sampling (n=1000) with 95% confidence level\n2. **Significance Testing:** One-sample t-test with Bonferroni correction\n3. **Effect Size:** Cohens d with pooled standard deviation estimation\n4. **Cross-validation:** 5-fold stratified sampling for robust evaluation\n\n## Conclusion\n\nThe DSPy reasoning system demonstrates statistically significant improvements across all benchmarks, with large effect sizes indicating practical significance beyond statistical significance.\n"

/-- The per-benchmark section of the report: performance metrics,
statistical validation, then one comparison line per baseline entry. -/
def benchmarkSection (r : BenchmarkResult) : Except PyError String := do
  let baselineLines ← r.baseline_comparison.mapM (baselineComparisonLine r.accuracy)
  pure ("\n### " ++ r.benchmark_name ++ "\n\n**Performance Metrics:**\n- Accuracy: "
    ++ toString r.accuracy ++ " (95% CI: " ++ toString r.confidence_interval.1
    ++ "-" ++ toString r.confidence_interval.2 ++ ")\n- F1 Score: "
    ++ toString r.f1_score ++ "\n- Precision: " ++ toString r.precision
    ++ "\n- Recall: " ++ toString r.recall
    ++ "\n\n**Statistical Validation:**\n- p-value: " ++ toString r.p_value
    ++ "\n- Effect size (Cohens d): " ++ toString r.effect_size
    ++ "\n- Statistical significance: "
    ++ (if r.statistical_significance then "Yes" else "No")
    ++ " (p < 0.01)\n- Sample size: " ++ toString r.sample_size
    ++ "\n\n**Baseline Comparison:**\n" ++ String.join baselineLines)

/-- `AcademicDSPyEvaluator.generate_academic_report`: header, one section
per result (in mapping order), footer.  Any `ZeroDivisionError` from a
baseline line propagates out of the method. -/
def generate_academic_report (results : List (String × BenchmarkResult)) :
    Except PyError String := do
  let sections ← results.mapM (fun r => benchmarkSection r.2)
  pure (reportHeader ++ String.join sections ++ reportFooter)

/-- The methods defined on `AcademicDSPyEvaluator`, transcribed from the
class body of `dspy_academic_benchmarks.py`. -/
def academicEvaluatorMethods : List String :=
  ["__init__", "evaluate_gsm8k_mathematical_reasoning",
   "evaluate_hotpotqa_multihop_reasoning",
   "evaluate_strategyqa_complex_reasoning", "conduct_ablation_study",
   "_bootstrap_confidence_interval", "_significance_test", "_cohens_d",
   "generate_academic_report", "_load_gsm8k_dataset",
   "_load_hotpotqa_dataset", "_load_strategyqa_dataset",
   "_extract_numerical_answer", "_extract_boolean_answer",
   "_compute_f1_text", "_compute_precision_text", "_compute_recall_text"]

/-- `_compute_f1_text` as defined in the source: the body is a stub that
returns `0.0` for every pair of strings. -/
def compute_f1_text (pred true_answer : String) : ℚ := 0

/-- `_compute_precision_text` as defined in the source: returns `0.0`. -/
def compute_precision_text (pred true_answer : String) : ℚ := 0

/-- `_compute_recall_text` as defined in the source: returns `0.0`. -/
def compute_recall_text (pred true_answer : String) : ℚ := 0

/-- `_cohens_d`: `(score1 - score2) / pooled_std` with `pooled_std = 0.05`. -/
def cohens_d (score1 score2 : ℚ) : ℚ := (score1 - score2) / (1/20)

/-- The Python attribute access `self._bootstrap_confidence_interval_f1` at
line 169: no method of that name is defined anywhere on
`AcademicDSPyEvaluator` (see `academicEvaluatorMethods`), so the lookup
raises `AttributeError` and no bootstrap computation takes place. -/
def bootstrap_confidence_interval_f1 (f1_scores : List ℚ) :
    Except PyError (ℚ × ℚ) :=
  .error (.attributeError "_bootstrap_confidence_interval_f1")

/-- One HotPotQA dataset record. -/
structure HotpotExample where
  question : String
  context : String
  answer : String

/-- `AcademicDSPyEvaluator.evaluate_hotpotqa_multihop_reasoning`: per-example
model calls (failures are skipped and logged), per-example F1 scores via
`_compute_f1_text`, then the call to the undefined
`_bootstrap_confidence_interval_f1`.  The external DSPy model is the opaque
collaborator `runModel`, and the scipy t-distribution inside
`_significance_test` is the opaque collaborator `significance_test`. -/
def evaluate_hotpotqa_multihop_reasoning
    (runModel : String → String → Except Unit String)
    (significance_test : ℚ → ℚ → ℚ)
    (questions : List HotpotExample)
    (baseline_results : List (String × ℚ)) : Except PyError BenchmarkResult := do
  let collected := questions.filterMap (fun q =>
    match runModel q.question q.context with
    | .ok answer => some (answer, q.answer)
    | .error _ => none)
  let predictions := collected.map Prod.fst
  let ground_truth := collected.map Prod.snd
  let f1_scores := (predictions.zip ground_truth).map
    (fun pt => compute_f1_text pt.1 pt.2)
  let avg_f1 := listMean f1_scores
  let ci ← bootstrap_confidence_interval_f1 f1_scores
  let baseline := (baseline_results.lookup "few_shot").getD (548/1000)
  let p_value := significance_test avg_f1 baseline
  pure { benchmark_name := "HotPotQA Multi-hop Reasoning"
         accuracy := avg_f1
         f1_score := avg_f1
         precision := listMean ((predictions.zip ground_truth).map
           (fun pt => compute_precision_text pt.1 pt.2))
         «recall» := listMean ((predictions.zip ground_truth).map
           (fun pt => compute_recall_text pt.1 pt.2))
         confidence_interval := ci
         p_value := p_value
         sample_size := predictions.length
         baseline_comparison := baseline_results
         statistical_significance := decide (p_value < 1/100)
         effect_size := cohens_d avg_f1 baseline }

/-- Python dict assignment `d[k] = v`: overwrite in place if the key
exists, else append in insertion order. -/
def dictInsert {α : Type} (d : List (String × α)) (k : String) (v : α) :
    List (String × α) :=
  if d.any (fun e => e.1 = k) then
    d.map (fun e => if e.1 = k then (k, v) else e)
  else d ++ [(k, v)]

/-- `AcademicDSPyEvaluator.conduct_ablation_study`.  The repository does not
implement `_evaluate_on_dataset` or `_create_ablated_model` (the tests mock
them); modelled from the spec, they are opaque collaborators: one baseline
evaluation of the unmodified model keyed `full_model`, then one evaluation
per named component keyed `without_<component>`, collected into one
mapping. -/
def conduct_ablation_study {Model : Type}
    (evaluate_on_dataset : Model → String → BenchmarkResult)
    (create_ablated_model : Model → String → Model)
    (base_model : Model) (components : List String) (dataset : String) :
    List (String × BenchmarkResult) :=
  let results := dictInsert [] "full_model" (evaluate_on_dataset base_model dataset)
  components.foldl (fun acc component =>
    dictInsert acc ("without_" ++ component)
      (evaluate_on_dataset (create_ablated_model base_model component) dataset))
    results

/-- A `BenchmarkResult` whose `baseline_comparison` contains a baseline
score of `0.0`. -/
def zeroBaselineResult : BenchmarkResult :=
  { benchmark_name := "Test Benchmark", accuracy := 852/1000,
    f1_score := 834/1000, precision := 867/1000, «recall» := 802/1000,
    confidence_interval := (834/1000, 870/1000), p_value := 1/10000,
    sample_size := 1000, baseline_comparison := [("zero_baseline", 0)],
    statistical_significance := true, effect_size := 3 }

/-- A `BenchmarkResult` with only nonzero baseline scores. -/
def okBaselineResult : BenchmarkResult :=
  { benchmark_name := "Test Benchmark", accuracy := 852/1000,
    f1_score := 834/1000, precision := 867/1000, «recall» := 802/1000,
    confidence_interval := (834/1000, 870/1000), p_value := 1/10000,
    sample_size := 1000,
    baseline_comparison := [("baseline", 7/10), ("few_shot", 13/20)],
    statistical_significance := true, effect_size := 3 }

/-- A degenerate `BenchmarkResult` used as the output of a trivial
evaluation collaborator. -/
def trivialBenchmarkResult : BenchmarkResult :=
  { benchmark_name := "", accuracy := 0, f1_score := 0, precision := 0,
    «recall» := 0, confidence_interval := (0, 0), p_value := 0,
    sample_size := 0, baseline_comparison := [],
    statistical_significance := false, effect_size := 0 }

lemma npClip_mem (v lo hi : ℚ) (h : lo ≤ hi) :
    lo ≤ npClip v lo hi ∧ npClip v lo hi ≤ hi := by
  constructor
  · exact le_min (le_max_right v lo) h
  · exact min_le_right _ _

lemma npClip_eq_self (v lo hi : ℚ) (h1 : lo ≤ v) (h2 : v ≤ hi) :
    npClip v lo hi = v := by
  unfold npClip
  rw [max_eq_left h1, min_eq_left h2]

lemma npClip_idem (v lo hi : ℚ) (h : lo ≤ hi) :
    npClip (npClip v lo hi) lo hi = npClip v lo hi := by
  obtain ⟨h1, h2⟩ := npClip_mem v lo hi h
  exact npClip_eq_self _ _ _ h1 h2

/-- C8: `validate_parameter` is exactly the bounds check for known names and
`false` (without raising) for any other name. -/
theorem validate_parameter_characterization :
    (∀ (b : DSPyParameterBounds) (name : String) (value : ℚ),
      b.validate_parameter name value = true ↔
        ((name = "temperature" ∧ b.temperature_min ≤ value ∧ value ≤ b.temperature_max) ∨
         (name = "max_tokens" ∧ b.max_tokens_min ≤ value ∧ value ≤ b.max_tokens_max) ∨
         (name = "learning_rate" ∧ b.learning_rate_min ≤ value ∧ value ≤ b.learning_rate_max) ∨
         (name = "max_rounds" ∧ b.max_rounds_min ≤ value ∧ value ≤ b.max_rounds_max) ∨
         (name = "max_examples" ∧ b.max_examples_min ≤ value ∧ value ≤ b.max_examples_max) ∨
         (name = "reasoning_weight" ∧ b.reasoning_weight_min ≤ value ∧ value ≤ b.reasoning_weight_max) ∨
         (name = "tolerance" ∧ b.tolerance_min ≤ value ∧ value ≤ b.tolerance_max)))
    ∧ defaultParameterBounds.validate_parameter "temperature" 5 = false
    ∧ defaultParameterBounds.validate_parameter "unknown_name" (1/2) = false := by
  refine ⟨?_,
    by norm_num [defaultParameterBounds, DSPyParameterBounds.validate_parameter],
    by norm_num [defaultParameterBounds, DSPyParameterBounds.validate_parameter]; decide⟩
  intro b name value
  unfold DSPyParameterBounds.validate_parameter
  split_ifs with h1 h2 h3 h4 h5 h6 h7 <;> simp_all

/-- C9: over the declared (default) bounds table, `clip_parameter` is
idempotent on every known parameter name and its result always validates. -/
theorem clip_parameter_idem_and_valid (name : String) (v : ℚ)
    (h : name ∈ calibrationParamNames) :
    defaultParameterBounds.clip_parameter name
        (defaultParameterBounds.clip_parameter name v) =
      defaultParameterBounds.clip_parameter name v ∧
    defaultParameterBounds.validate_parameter name
        (defaultParameterBounds.clip_parameter name v) = true := by
  simp only [calibrationParamNames, List.mem_cons, List.mem_singleton,
    List.not_mem_nil, or_false] at h
  rcases h with h | h | h | h | h | h | h <;> subst h <;>
    · norm_num [DSPyParameterBounds.clip_parameter,
        DSPyParameterBounds.validate_parameter, defaultParameterBounds]
      exact ⟨npClip_idem _ _ _ (by norm_num), npClip_mem _ _ _ (by norm_num)⟩

/-- Witness for C9 at `name = "temperature"`, `v = 5`. -/
theorem clip_parameter_idem_and_valid_witness :
    "temperature" ∈ calibrationParamNames ∧
    (defaultParameterBounds.clip_parameter "temperature"
        (defaultParameterBounds.clip_parameter "temperature" 5) =
      defaultParameterBounds.clip_parameter "temperature" 5 ∧
    defaultParameterBounds.validate_parameter "temperature"
        (defaultParameterBounds.clip_parameter "temperature" 5) = true) :=
  ⟨by simp [calibrationParamNames],
   clip_parameter_idem_and_valid "temperature" 5 (by simp [calibrationParamNames])⟩

lemma exceptOk_bind {ε α β : Type} (a : α) (f : α → Except ε β) :
    (Except.ok a >>= f) = f a := rfl

lemma validateStep_clip_temperature (c : DSPyCalibrationConfig)
    (hc : c.clip_invalid_parameters = true) :
    validateStep defaultParameterBounds c "temperature" =
      .ok { c with temperature := npClip c.temperature (1/10) 2 } := by
  obtain ⟨t, f2, f3, f4, f5, f6, f7, f8, f9, f10, f11, cip⟩ := c
  subst hc
  simp only [validateStep, DSPyCalibrationConfig.getParam,
    DSPyCalibrationConfig.setParam, DSPyParameterBounds.validate_parameter,
    DSPyParameterBounds.clip_parameter, defaultParameterBounds,
    String.reduceEq, reduceIte]
  norm_num
  intro h1 h2
  rw [npClip_eq_self _ _ _ h1 h2]

lemma validateStep_clip_max_tokens (c : DSPyCalibrationConfig)
    (hc : c.clip_invalid_parameters = true) :
    validateStep defaultParameterBounds c "max_tokens" =
      .ok { c with max_tokens := npClip c.max_tokens 100 8192 } := by
  obtain ⟨f1, t, f3, f4, f5, f6, f7, f8, f9, f10, f11, cip⟩ := c
  subst hc
  simp only [validateStep, DSPyCalibrationConfig.getParam,
    DSPyCalibrationConfig.setParam, DSPyParameterBounds.validate_parameter,
    DSPyParameterBounds.clip_parameter, defaultParameterBounds,
    String.reduceEq, reduceIte]
  norm_num
  intro h1 h2
  rw [npClip_eq_self _ _ _ h1 h2]

lemma validateStep_clip_learning_rate (c : DSPyCalibrationConfig)
    (hc : c.clip_invalid_parameters = true) :
    validateStep defaultParameterBounds c "learning_rate" =
      .ok { c with learning_rate := npClip c.learning_rate (1/1000000) (1/10) } := by
  obtain ⟨f1, f2, t, f4, f5, f6, f7, f8, f9, f10, f11, cip⟩ := c
  subst hc
  simp only [validateStep, DSPyCalibrationConfig.getParam,
    DSPyCalibrationConfig.setParam, DSPyParameterBounds.validate_parameter,
    DSPyParameterBounds.clip_parameter, defaultParameterBounds,
    String.reduceEq, reduceIte]
  norm_num
  intro h1 h2
  rw [npClip_eq_self _ _ _ h1 h2]

lemma validateStep_clip_max_rounds (c : DSPyCalibrationConfig)
    (hc : c.clip_invalid_parameters = true) :
    validateStep defaultParameterBounds c "max_rounds" =
      .ok { c with max_rounds := npClip c.max_rounds 1 10 } := by
  obtain ⟨f1, f2, f3, t, f5, f6, f7, f8, f9, f10, f11, cip⟩ := c
  subst hc
  simp only [validateStep, DSPyCalibrationConfig.getParam,
    DSPyCalibrationConfig.setParam, DSPyParameterBounds.validate_parameter,
    DSPyParameterBounds.clip_parameter, defaultParameterBounds,
    String.reduceEq, reduceIte]
  norm_num
  intro h1 h2
  rw [npClip_eq_self _ _ _ h1 h2]

lemma validateStep_clip_max_examples (c : DSPyCalibrationConfig)
    (hc : c.clip_invalid_parameters = true) :
    validateStep defaultParameterBounds c "max_examples" =
      .ok { c with max_examples := npClip c.max_examples 1 100 } := by
  obtain ⟨f1, f2, f3, f4, t, f6, f7, f8, f9, f10, f11, cip⟩ := c
  subst hc
  simp only [validateStep, DSPyCalibrationConfig.getParam,
    DSPyCalibrationConfig.setParam, DSPyParameterBounds.validate_parameter,
    DSPyParameterBounds.clip_parameter, defaultParameterBounds,
    String.reduceEq, reduceIte]
  norm_num
  intro h1 h2
  rw [npClip_eq_self _ _ _ h1 h2]

lemma validateStep_clip_reasoning_weight (c : DSPyCalibrationConfig)
    (hc : c.clip_invalid_parameters = true) :
    validateStep defaultParameterBounds c "reasoning_weight" =
      .ok { c with reasoning_weight := npClip c.reasoning_weight 0 1 } := by
  obtain ⟨f1, f2, f3, f4, f5, t, f7, f8, f9, f10, f11, cip⟩ := c
  subst hc
  simp only [validateStep, DSPyCalibrationConfig.getParam,
    DSPyCalibrationConfig.setParam, DSPyParameterBounds.validate_parameter,
    DSPyParameterBounds.clip_parameter, defaultParameterBounds,
    String.reduceEq, reduceIte]
  norm_num
  intro h1 h2
  rw [npClip_eq_self _ _ _ h1 h2]

lemma validateStep_clip_tolerance (c : DSPyCalibrationConfig)
    (hc : c.clip_invalid_parameters = true) :
    validateStep defaultParameterBounds c "tolerance" =
      .ok { c with tolerance := npClip c.tolerance (1/1000000) (1/100) } := by
  obtain ⟨f1, f2, f3, f4, f5, f6, t, f8, f9, f10, f11, cip⟩ := c
  subst hc
  simp only [validateStep, DSPyCalibrationConfig.getParam,
    DSPyCalibrationConfig.setParam, DSPyParameterBounds.validate_parameter,
    DSPyParameterBounds.clip_parameter, defaultParameterBounds,
    String.reduceEq, reduceIte]
  norm_num
  intro h1 h2
  rw [npClip_eq_self _ _ _ h1 h2]

lemma exceptError_bind {ε α β : Type} (e : ε) (f : α → Except ε β) :
    ((Except.error e : Except ε α) >>= f) = .error e := rfl

lemma post_init_clip (c : DSPyCalibrationConfig) (h1 : c.validate_parameters = true)
    (h2 : c.clip_invalid_parameters = true) :
    c.post_init = .ok (clipConfig c) := by
  obtain ⟨f1, f2, f3, f4, f5, f6, f7, f8, f9, f10, vp, cip⟩ := c
  replace h1 : vp = true := h1
  replace h2 : cip = true := h2
  subst h1; subst h2
  unfold DSPyCalibrationConfig.post_init
  rw [if_neg (by simp)]
  rw [validateStep_clip_temperature _ rfl, exceptOk_bind]
  rw [validateStep_clip_max_tokens _ rfl, exceptOk_bind]
  rw [validateStep_clip_learning_rate _ rfl, exceptOk_bind]
  rw [validateStep_clip_max_rounds _ rfl, exceptOk_bind]
  rw [validateStep_clip_max_examples _ rfl, exceptOk_bind]
  rw [validateStep_clip_reasoning_weight _ rfl, exceptOk_bind]
  rw [validateStep_clip_tolerance _ rfl, exceptOk_bind]
  rfl

lemma validateStep_noclip (c : DSPyCalibrationConfig)
    (hc : c.clip_invalid_parameters = false) (n : String) :
    validateStep defaultParameterBounds c n =
      if defaultParameterBounds.validate_parameter n (c.getParam n) = false
      then .error (.valueError ("Invalid " ++ n ++ ": " ++ toString (c.getParam n)))
      else .ok c := by
  simp only [validateStep, hc]
  split_ifs <;> simp_all

/-- C7: with `validate_parameters` on, construction checks the seven numeric
parameters against the bounds table; with `clip_invalid_parameters` on, every
out-of-range value is replaced by its clipped value (in particular
`temperature = -1` yields `temperature = 1/10`); with it off, construction
fails with a `ValueError` naming the parameter and its value. -/
theorem post_init_validation :
    (∀ c : DSPyCalibrationConfig, c.validate_parameters = true →
        c.clip_invalid_parameters = true → c.post_init = .ok (clipConfig c))
    ∧ (DSPyCalibrationConfig.post_init { temperature := -1 } =
        .ok { temperature := 1/10 })
    ∧ (∀ c : DSPyCalibrationConfig, c.validate_parameters = true →
        c.clip_invalid_parameters = false →
        (∃ n ∈ calibrationParamNames,
          defaultParameterBounds.validate_parameter n (c.getParam n) = false) →
        ∃ n ∈ calibrationParamNames,
          defaultParameterBounds.validate_parameter n (c.getParam n) = false ∧
          c.post_init =
            .error (.valueError ("Invalid " ++ n ++ ": " ++ toString (c.getParam n)))) := by
  refine ⟨post_init_clip, ?_, ?_⟩
  · rw [post_init_clip _ rfl rfl]
    norm_num [clipConfig, npClip, min_def, max_def]
  · intro c h1 h2 hex
    by_cases v1 : defaultParameterBounds.validate_parameter "temperature"
        (c.getParam "temperature") = false
    · refine ⟨"temperature", by simp [calibrationParamNames], v1, ?_⟩
      unfold DSPyCalibrationConfig.post_init
      rw [if_neg (by simp [h1]), validateStep_noclip c h2, if_pos v1, exceptError_bind]
    · by_cases v2 : defaultParameterBounds.validate_parameter "max_tokens"
          (c.getParam "max_tokens") = false
      · refine ⟨"max_tokens", by simp [calibrationParamNames], v2, ?_⟩
        unfold DSPyCalibrationConfig.post_init
        rw [if_neg (by simp [h1]), validateStep_noclip c h2, if_neg v1, exceptOk_bind,
          validateStep_noclip c h2, if_pos v2, exceptError_bind]
      · by_cases v3 : defaultParameterBounds.validate_parameter "learning_rate"
            (c.getParam "learning_rate") = false
        · refine ⟨"learning_rate", by simp [calibrationParamNames], v3, ?_⟩
          unfold DSPyCalibrationConfig.post_init
          rw [if_neg (by simp [h1]), validateStep_noclip c h2, if_neg v1, exceptOk_bind,
            validateStep_noclip c h2, if_neg v2, exceptOk_bind,
            validateStep_noclip c h2, if_pos v3, exceptError_bind]
        · by_cases v4 : defaultParameterBounds.validate_parameter "max_rounds"
              (c.getParam "max_rounds") = false
          · refine ⟨"max_rounds", by simp [calibrationParamNames], v4, ?_⟩
            unfold DSPyCalibrationConfig.post_init
            rw [if_neg (by simp [h1]), validateStep_noclip c h2, if_neg v1, exceptOk_bind,
              validateStep_noclip c h2, if_neg v2, exceptOk_bind,
              validateStep_noclip c h2, if_neg v3, exceptOk_bind,
              validateStep_noclip c h2, if_pos v4, exceptError_bind]
          · by_cases v5 : defaultParameterBounds.validate_parameter "max_examples"
                (c.getParam "max_examples") = false
            · refine ⟨"max_examples", by simp [calibrationParamNames], v5, ?_⟩
              unfold DSPyCalibrationConfig.post_init
              rw [if_neg (by simp [h1]), validateStep_noclip c h2, if_neg v1, exceptOk_bind,
                validateStep_noclip c h2, if_neg v2, exceptOk_bind,
                validateStep_noclip c h2, if_neg v3, exceptOk_bind,
                validateStep_noclip c h2, if_neg v4, exceptOk_bind,
                validateStep_noclip c h2, if_pos v5, exceptError_bind]
            · by_cases v6 : defaultParameterBounds.validate_parameter "reasoning_weight"
                  (c.getParam "reasoning_weight") = false
              · refine ⟨"reasoning_weight", by simp [calibrationParamNames], v6, ?_⟩
                unfold DSPyCalibrationConfig.post_init
                rw [if_neg (by simp [h1]), validateStep_noclip c h2, if_neg v1, exceptOk_bind,
                  validateStep_noclip c h2, if_neg v2, exceptOk_bind,
                  validateStep_noclip c h2, if_neg v3, exceptOk_bind,
                  validateStep_noclip c h2, if_neg v4, exceptOk_bind,
                  validateStep_noclip c h2, if_neg v5, exceptOk_bind,
                  validateStep_noclip c h2, if_pos v6, exceptError_bind]
              · by_cases v7 : defaultParameterBounds.validate_parameter "tolerance"
                    (c.getParam "tolerance") = false
                · refine ⟨"tolerance", by simp [calibrationParamNames], v7, ?_⟩
                  unfold DSPyCalibrationConfig.post_init
                  rw [if_neg (by simp [h1]), validateStep_noclip c h2, if_neg v1, exceptOk_bind,
                    validateStep_noclip c h2, if_neg v2, exceptOk_bind,
                    validateStep_noclip c h2, if_neg v3, exceptOk_bind,
                    validateStep_noclip c h2, if_neg v4, exceptOk_bind,
                    validateStep_noclip c h2, if_neg v5, exceptOk_bind,
                    validateStep_noclip c h2, if_neg v6, exceptOk_bind,
                    validateStep_noclip c h2, if_pos v7, exceptError_bind]
                · exfalso
                  obtain ⟨n, hn, hv⟩ := hex
                  simp only [calibrationParamNames, List.mem_cons,
                    List.not_mem_nil, or_false] at hn
                  rcases hn with rfl | rfl | rfl | rfl | rfl | rfl | rfl
                  exacts [v1 hv, v2 hv, v3 hv, v4 hv, v5 hv, v6 hv, v7 hv]

/-- Witness for C7: the clip branch at `temperature = 5` and the error
branch at `temperature = 5` with clipping disabled. -/
theorem post_init_validation_witness :
    (DSPyCalibrationConfig.post_init { temperature := 5 } =
        .ok (clipConfig { temperature := 5 }))
    ∧ (∃ n ∈ calibrationParamNames,
        defaultParameterBounds.validate_parameter n
          (DSPyCalibrationConfig.getParam
            { temperature := 5, clip_invalid_parameters := false } n) = false ∧
        DSPyCalibrationConfig.post_init
            { temperature := 5, clip_invalid_parameters := false } =
          .error (.valueError ("Invalid " ++ n ++ ": " ++
            toString (DSPyCalibrationConfig.getParam
              { temperature := 5, clip_invalid_parameters := false } n)))) :=
  ⟨post_init_validation.1 _ rfl rfl,
   post_init_validation.2.2 _ rfl rfl
     ⟨"temperature", by simp [calibrationParamNames],
      by norm_num [DSPyCalibrationConfig.getParam, defaultParameterBounds,
        DSPyParameterBounds.validate_parameter]⟩⟩

/-- C6 counterexample: with fewer than 3 history points the code returns
`current_lr` unchanged, even when it lies outside
`[learning_rate_min, learning_rate_max]`: at `loss_history = []`,
`current_lr = 1` the result is `1`, which exceeds `learning_rate_max = 1/10`. -/
theorem adaptive_learning_rate_short_history_not_clipped :
    (DSPyParameterOptimizer.adaptive_learning_rate {} [] 1 = 1)
    ∧ ¬(({} : DSPyParameterOptimizer).bounds.learning_rate_min ≤ 1 ∧
        (1:ℚ) ≤ ({} : DSPyParameterOptimizer).bounds.learning_rate_max) := by
  constructor
  · rfl
  · show ¬((1/1000000 : ℚ) ≤ 1 ∧ (1:ℚ) ≤ 1/10)
    norm_num

/-- C6 (amended): whenever the loss history has at least 3 entries, the
result of `adaptive_learning_rate` is clipped into
`[learning_rate_min, learning_rate_max]` (for any bounds table with
`learning_rate_min ≤ learning_rate_max`); with fewer than 3 entries the
code returns `current_lr` unchanged, without clipping. -/
theorem adaptive_learning_rate_clipped (o : DSPyParameterOptimizer)
    (lh : List ℚ) (lr : ℚ)
    (hb : o.bounds.learning_rate_min ≤ o.bounds.learning_rate_max)
    (h3 : 3 ≤ lh.length) :
    (o.bounds.learning_rate_min ≤ o.adaptive_learning_rate lh lr ∧
      o.adaptive_learning_rate lh lr ≤ o.bounds.learning_rate_max)
    ∧ ∀ lh2 : List ℚ, lh2.length < 3 → o.adaptive_learning_rate lh2 lr = lr := by
  refine ⟨?_, fun lh2 hlen => by
    unfold DSPyParameterOptimizer.adaptive_learning_rate; rw [if_pos hlen]⟩
  unfold DSPyParameterOptimizer.adaptive_learning_rate
  rw [if_neg (by omega)]
  have hdrop : (lh.drop (lh.length - 3)).length = 3 := by
    rw [List.length_drop]; omega
  rcases hd : lh.drop (lh.length - 3) with _ | ⟨a, _ | ⟨b, _ | ⟨c, _ | tl⟩⟩⟩ <;>
    rw [hd] at hdrop <;> simp at hdrop
  exact npClip_mem _ _ _ hb

/-- Witness for C6 (amended) at the default bounds, history `[1, 2, 3]`
(strictly increasing losses) and rate `1`. -/
theorem adaptive_learning_rate_clipped_witness :
    (({} : DSPyParameterOptimizer).bounds.learning_rate_min ≤
        ({} : DSPyParameterOptimizer).bounds.learning_rate_max ∧
      3 ≤ ([1, 2, 3] : List ℚ).length)
    ∧ ((({} : DSPyParameterOptimizer).bounds.learning_rate_min ≤
          DSPyParameterOptimizer.adaptive_learning_rate {} [1, 2, 3] 1 ∧
        DSPyParameterOptimizer.adaptive_learning_rate {} [1, 2, 3] 1 ≤
          ({} : DSPyParameterOptimizer).bounds.learning_rate_max)
      ∧ ∀ lh2 : List ℚ, lh2.length < 3 →
          DSPyParameterOptimizer.adaptive_learning_rate {} lh2 1 = 1) :=
  ⟨⟨by show (1/1000000 : ℚ) ≤ 1/10; norm_num, by simp⟩,
   adaptive_learning_rate_clipped {} [1, 2, 3] 1
     (by show (1/1000000 : ℚ) ≤ 1/10; norm_num) (by simp)⟩

/-- C1 counterexample: on an unfitted calibrator (`fit` never called, so
`is_fitted = false`), `evaluate_calibration` does not fail with an
illegal-state error — it returns the metrics dictionary (here for
predictions `[1/2]`, targets `[1]`, the default 10 bins). -/
theorem evaluate_calibration_unfitted_returns_metrics :
    (mkDSPyConfidenceCalibrator "platt").is_fitted = false
    ∧ (mkDSPyConfidenceCalibrator "platt").evaluate_calibration [1/2] [1] 10 =
        .ok { ece := 1/2, mce := 1/2, brier_score := 1/4,
              reliability := 1/4, resolution := 0 } := by
  refine ⟨rfl, ?_⟩
  show Except.ok (evaluateCalibrationMetrics [1/2] [1] 10) = _
  norm_num [evaluateCalibrationMetrics, binPairs, binProp, binSel, inBin,
    listMean, List.range_succ]

/-- C1 (amended): the fitted-state check exists only in `predict_proba`,
which raises `ValueError("Calibrator not fitted. Call fit() first.")` on an
unfitted calibrator, while `evaluate_calibration` performs no state check
and returns the metrics dictionary for any calibrator state. -/
theorem unfitted_state_behavior (applyModel : FittedCalibrator → List ℚ → List ℚ)
    (c : DSPyConfidenceCalibrator) (preds targets : List ℚ) (n_bins : ℕ)
    (h : c.is_fitted = false) :
    c.predict_proba applyModel preds =
      .error (.valueError "Calibrator not fitted. Call fit() first.")
    ∧ c.evaluate_calibration preds targets n_bins =
      .ok (evaluateCalibrationMetrics preds targets n_bins) := by
  constructor
  · unfold DSPyConfidenceCalibrator.predict_proba
    rw [if_pos h]
  · rfl

/-- Witness for C1 (amended) at the freshly constructed platt calibrator. -/
theorem unfitted_state_behavior_witness :
    ((mkDSPyConfidenceCalibrator "platt").is_fitted = false)
    ∧ ((mkDSPyConfidenceCalibrator "platt").predict_proba (fun _ ps => ps) [1/2] =
        .error (.valueError "Calibrator not fitted. Call fit() first.")
      ∧ (mkDSPyConfidenceCalibrator "platt").evaluate_calibration [1/2] [1] 10 =
        .ok (evaluateCalibrationMetrics [1/2] [1] 10)) :=
  ⟨rfl, unfitted_state_behavior (fun _ ps => ps)
    (mkDSPyConfidenceCalibrator "platt") [1/2] [1] 10 rfl⟩

/-- C4 counterexample: `fit` with method `"temperature"` produces the same
calibrator state — `TemperatureScaling` at its initial temperature 1 —
for two different datasets, so the fitted temperature does not depend on
the supplied fit data and no cross-entropy optimization has taken place. -/
theorem fit_temperature_ignores_data :
    (mkDSPyConfidenceCalibrator "temperature").fit [9/10, 9/10] [1, 1] =
      .ok ⟨"temperature", some (.temperatureScaling ⟨1⟩), true⟩
    ∧ (mkDSPyConfidenceCalibrator "temperature").fit [1/10] [0] =
      .ok ⟨"temperature", some (.temperatureScaling ⟨1⟩), true⟩
    ∧ ([9/10, 9/10] ≠ ([1/10] : List ℚ)) :=
  ⟨rfl, rfl, by simp⟩

/-- C4 (amended): `fit` with method `"temperature"` installs
`TemperatureScaling()` with its initial temperature 1 and marks the
calibrator fitted, without invoking `TemperatureScaling.calibrate`; the
result is independent of `predictions` and `targets`. -/
theorem fit_temperature_constant (preds targets : List ℚ) :
    (mkDSPyConfidenceCalibrator "temperature").fit preds targets =
      .ok { method := "temperature",
            calibrator := some (.temperatureScaling { temperature := 1 }),
            is_fitted := true } := rfl

/-- C10: bin membership is strict at the lower edge, so a prediction equal
to 0 falls in no bin (every bin lower bound is nonnegative), a prediction
equal to 1 falls in the last bin, a population containing a 0 prediction
has bin fractions summing to strictly less than 1, and a 0 prediction
contributes nothing to ECE, MCE or reliability. -/
theorem evaluate_calibration_binning :
    (∀ n_bins i : ℕ,
      inBin ((i : ℚ) / (n_bins : ℚ)) (((i : ℚ) + 1) / (n_bins : ℚ)) 0 = false)
    ∧ (∀ n_bins i : ℕ, i + 1 = n_bins →
      inBin ((i : ℚ) / (n_bins : ℚ)) (((i : ℚ) + 1) / (n_bins : ℚ)) 1 = true)
    ∧ (binPropSum [0, 1/2] [1, 0] 10 = 1/2 ∧ (1/2 : ℚ) < 1)
    ∧ evaluateCalibrationMetrics [0] [1] 10 =
        { ece := 0, mce := 0, brier_score := 1, reliability := 0, resolution := 0 } := by
  refine ⟨?_, ?_, ⟨?_, by norm_num⟩, ?_⟩
  · intro n_bins i
    have h0 : ¬((i : ℚ) / (n_bins : ℚ) < 0) := not_lt.mpr (by positivity)
    simp [inBin, h0]
  · intro n_bins i hi
    subst hi
    have hpos : (0 : ℚ) < ((i : ℚ) + 1) := by positivity
    have hcast : (((i + 1 : ℕ) : ℚ)) = (i : ℚ) + 1 := by push_cast; ring
    rw [hcast]
    simp only [inBin, Bool.and_eq_true, decide_eq_true_eq]
    constructor
    · exact (div_lt_one hpos).mpr (by linarith)
    · rw [div_self (ne_of_gt hpos)]
  · norm_num [binPropSum, binPairs, binProp, binSel, inBin, List.range_succ]
  · norm_num [evaluateCalibrationMetrics, binPairs, binProp, binSel, inBin,
      listMean, List.range_succ]

/-- Witness for C10 at `n_bins = 10`: the last bin `(9/10, 10/10]`
contains the prediction 1. -/
theorem evaluate_calibration_binning_witness :
    (9 + 1 = 10)
    ∧ inBin ((9 : ℚ) / (10 : ℚ)) (((9 : ℚ) + 1) / (10 : ℚ)) 1 = true :=
  ⟨rfl, evaluate_calibration_binning.2.1 10 9 rfl⟩

lemma baselineComparisonLine_ok (accuracy : ℚ) (e : String × ℚ) (h : e.2 ≠ 0) :
    baselineComparisonLine accuracy e =
      .ok ("- vs " ++ e.1 ++ ": " ++
        toString ((accuracy - e.2) / e.2 * 100) ++ "% improvement\n") := by
  unfold baselineComparisonLine
  rw [if_neg h]

lemma mapM_except_ok {α β : Type} (f : α → Except PyError β) (l : List α)
    (h : ∀ a ∈ l, ∃ b, f a = .ok b) : ∃ bs, l.mapM f = .ok bs := by
  induction l with
  | nil => exact ⟨[], rfl⟩
  | cons a t ih =>
    obtain ⟨b, hb⟩ := h a (List.mem_cons_self a t)
    obtain ⟨bs, hbs⟩ := ih (fun x hx => h x (List.mem_cons_of_mem a hx))
    exact ⟨b :: bs, by rw [List.mapM_cons, hb, exceptOk_bind, hbs, exceptOk_bind]; rfl⟩

/-- C2 counterexample: on a result whose `baseline_comparison` holds the
baseline score `0.0`, `generate_academic_report` raises `ZeroDivisionError`
from the unguarded percentage-improvement division instead of returning a
report. -/
theorem generate_academic_report_zero_baseline_raises :
    generate_academic_report [("test_benchmark", zeroBaselineResult)] =
      .error .zeroDivisionError := rfl

/-- C2 (amended): `generate_academic_report` returns a report whenever every
baseline score in every result is nonzero; a baseline score equal to `0.0`
makes the percentage-improvement division raise `ZeroDivisionError` (there
is no guard). -/
theorem generate_academic_report_no_raise
    (results : List (String × BenchmarkResult))
    (h : ∀ r ∈ results, ∀ e ∈ r.2.baseline_comparison, e.2 ≠ 0) :
    ∃ s, generate_academic_report results = .ok s := by
  have hsec : ∀ r ∈ results, ∃ s, benchmarkSection r.2 = .ok s := by
    intro r hr
    obtain ⟨ls, hls⟩ := mapM_except_ok (baselineComparisonLine r.2.accuracy)
      r.2.baseline_comparison
      (fun e he => ⟨_, baselineComparisonLine_ok _ e (h r hr e he)⟩)
    exact ⟨_, by unfold benchmarkSection; rw [hls, exceptOk_bind]; rfl⟩
  obtain ⟨secs, hsecs⟩ := mapM_except_ok _ results hsec
  exact ⟨_, by unfold generate_academic_report; rw [hsecs, exceptOk_bind]; rfl⟩

/-- Witness for C2 (amended) at a single result with nonzero baselines. -/
theorem generate_academic_report_no_raise_witness :
    (∀ r ∈ [("test_benchmark", okBaselineResult)],
      ∀ e ∈ r.2.baseline_comparison, e.2 ≠ 0)
    ∧ ∃ s, generate_academic_report [("test_benchmark", okBaselineResult)] = .ok s := by
  have h : ∀ r ∈ [("test_benchmark", okBaselineResult)],
      ∀ e ∈ r.2.baseline_comparison, e.2 ≠ 0 := by
    intro r hr e he
    simp only [List.mem_singleton] at hr
    subst hr
    simp only [okBaselineResult, List.mem_cons, List.not_mem_nil, or_false] at he
    rcases he with rfl | rfl <;> norm_num
  exact ⟨h, generate_academic_report_no_raise _ h⟩

/-- C3: `_bootstrap_confidence_interval_f1` is not among the methods defined
on `AcademicDSPyEvaluator`, so `evaluate_hotpotqa_multihop_reasoning`
raises `AttributeError` at the confidence-interval call for every model,
dataset and baseline mapping — including a dataset with one successfully
evaluated example — and never returns a `BenchmarkResult`. -/
theorem evaluate_hotpotqa_attribute_error :
    ("_bootstrap_confidence_interval_f1" ∉ academicEvaluatorMethods)
    ∧ (∀ (runModel : String → String → Except Unit String)
         (significance_test : ℚ → ℚ → ℚ)
         (questions : List HotpotExample)
         (baseline_results : List (String × ℚ)),
        evaluate_hotpotqa_multihop_reasoning runModel significance_test
            questions baseline_results =
          .error (.attributeError "_bootstrap_confidence_interval_f1"))
    ∧ (evaluate_hotpotqa_multihop_reasoning (fun q _ => .ok q)
        (fun a b => a - b) [⟨"Who?", "ctx", "ans"⟩] [("few_shot", 548/1000)] =
        .error (.attributeError "_bootstrap_confidence_interval_f1")) :=
  ⟨by decide, fun _ _ _ _ => rfl, rfl⟩

lemma without_prefix_data (c : String) :
    ("without_" ++ c).data =
      'w' :: 'i' :: 't' :: 'h' :: 'o' :: 'u' :: 't' :: '_' :: c.data := rfl

lemma without_ne_full_model (c : String) : "without_" ++ c ≠ "full_model" := by
  intro h
  have hd := congrArg String.data h
  rw [without_prefix_data] at hd
  have hfull : "full_model".data =
      'f' :: 'u' :: 'l' :: 'l' :: '_' :: 'm' :: 'o' :: 'd' :: 'e' :: 'l' :: [] := rfl
  rw [hfull] at hd
  injection hd with h1 _
  exact absurd h1 (by decide)

lemma without_append_injective (a b : String)
    (h : "without_" ++ a = "without_" ++ b) : a = b := by
  have hd := congrArg String.data h
  rw [without_prefix_data, without_prefix_data] at hd
  repeat injection hd with h1 hd
  obtain ⟨ad⟩ := a
  obtain ⟨bd⟩ := b
  exact congrArg String.mk hd

lemma dictInsert_fresh {α : Type} (d : List (String × α)) (k : String) (v : α)
    (h : ∀ e ∈ d, e.1 ≠ k) : dictInsert d k v = d ++ [(k, v)] := by
  unfold dictInsert
  rw [if_neg]
  simp only [List.any_eq_true, decide_eq_true_eq, not_exists]
  intro e he
  exact h e he.1 he.2

lemma ablation_fold_keys {Model : Type} (ev : Model → String → BenchmarkResult)
    (ab : Model → String → Model) (bm : Model) (ds : String) :
    ∀ (comps : List String) (acc : List (String × BenchmarkResult)),
      comps.Nodup →
      (∀ c ∈ comps, ∀ e ∈ acc, e.1 ≠ "without_" ++ c) →
      (comps.foldl (fun acc component =>
          dictInsert acc ("without_" ++ component)
            (ev (ab bm component) ds)) acc).map Prod.fst =
        acc.map Prod.fst ++ comps.map (fun c => "without_" ++ c) := by
  intro comps
  induction comps with
  | nil => intro acc _ _; simp
  | cons c cs ih =>
    intro acc hnd hfresh
    rw [List.foldl_cons,
      dictInsert_fresh _ _ _ (fun e he => hfresh c (by simp) e he)]
    have hfresh2 : ∀ c2 ∈ cs, ∀ e ∈ acc ++ [("without_" ++ c, ev (ab bm c) ds)],
        e.1 ≠ "without_" ++ c2 := by
      intro c2 hc2 e he
      rcases List.mem_append.mp he with hmem | hmem
      · exact hfresh c2 (List.mem_cons_of_mem _ hc2) e hmem
      · simp only [List.mem_singleton] at hmem
        subst hmem
        intro heq
        exact (List.nodup_cons.mp hnd).1
          (without_append_injective c c2 heq ▸ hc2)
    rw [ih (acc ++ [("without_" ++ c, ev (ab bm c) ds)])
      (List.nodup_cons.mp hnd).2 hfresh2]
    simp

/-- C5 counterexample: with the duplicate component list `["a", "a"]`
(`k = 2`) the study returns a mapping with 2 entries, not `k + 1 = 3`,
because the second `without_a` assignment overwrites the first dict entry. -/
theorem conduct_ablation_study_duplicate_components :
    (conduct_ablation_study (fun (_ : Unit) _ => trivialBenchmarkResult)
        (fun m _ => m) () ["a", "a"] "d").length = 2
    ∧ (["a", "a"] : List String).length + 1 = 3 := ⟨rfl, rfl⟩

/-- C5 (amended): for every list of k DISTINCT component names the study
returns exactly k+1 entries, keyed `full_model` (the unmodified model,
evaluated first) followed by `without_<component>` for each component in
order.  (`_evaluate_on_dataset` and `_create_ablated_model` are modelled
from the spec as opaque collaborators; see `conduct_ablation_study`.) -/
theorem conduct_ablation_study_keys {Model : Type}
    (ev : Model → String → BenchmarkResult) (ab : Model → String → Model)
    (bm : Model) (components : List String) (ds : String)
    (hnd : components.Nodup) :
    (conduct_ablation_study ev ab bm components ds).map Prod.fst =
      "full_model" :: components.map (fun c => "without_" ++ c)
    ∧ (conduct_ablation_study ev ab bm components ds).length =
      components.length + 1 := by
  have hkeys : (conduct_ablation_study ev ab bm components ds).map Prod.fst =
      "full_model" :: components.map (fun c => "without_" ++ c) := by
    unfold conduct_ablation_study
    have hinit : dictInsert ([] : List (String × BenchmarkResult))
        "full_model" (ev bm ds) = [("full_model", ev bm ds)] := rfl
    rw [hinit, ablation_fold_keys ev ab bm ds components
      [("full_model", ev bm ds)] hnd ?fresh]
    · simp
    case fresh =>
      intro c _ e he
      simp only [List.mem_singleton] at he
      subst he
      exact (without_ne_full_model c).symm
  have hlen := congrArg List.length hkeys
  simp only [List.length_map, List.length_cons] at hlen
  exact ⟨hkeys, hlen⟩

/-- Witness for C5 (amended) at the three distinct components used by the
repository test suite. -/
theorem conduct_ablation_study_keys_witness :
    (["retriever", "reasoner", "optimizer"] : List String).Nodup
    ∧ ((conduct_ablation_study (fun (_ : Unit) _ => trivialBenchmarkResult)
          (fun m _ => m) () ["retriever", "reasoner", "optimizer"] "d").map
            Prod.fst =
        "full_model" :: (["retriever", "reasoner", "optimizer"] : List String).map
          (fun c => "without_" ++ c)
      ∧ (conduct_ablation_study (fun (_ : Unit) _ => trivialBenchmarkResult)
          (fun m _ => m) () ["retriever", "reasoner", "optimizer"] "d").length =
        (["retriever", "reasoner", "optimizer"] : List String).length + 1) :=
  ⟨by decide,
   conduct_ablation_study_keys (fun (_ : Unit) _ => trivialBenchmarkResult)
     (fun m _ => m) () ["retriever", "reasoner", "optimizer"] "d" (by decide)⟩
